import Mathlib

/-
  Verification development for the eagle-fuss library engine.

  Shallow embedding of the Eagle library source layer (src/src/source.py,
  class EagleLibrarySource) and of the pyfuse3 request adapter
  (src/src/fuse_operations.py, class EagleLibrary), together with proofs
  about the cache/store behaviour of the engine.

  Python dicts are modelled as insertion-ordered association lists with
  dict semantics (assignment replaces in place or appends; iteration in
  list order), mirroring CPython dict ordering.  Python object mutation
  is modelled by explicit value replacement; where two cache maps hold
  the same Python object, both entries are updated together and the
  sharing is noted at the definition.  Wall-clock reads (now()) inside a
  single operation are modelled by one time parameter t.
-/

namespace Eagle

/-- Insertion-ordered association list modelling a Python dict. -/
abbrev Dict (α β : Type) := List (α × β)

namespace Dict

/-- Python d.get(k) / d[k] lookup: first (unique) binding of k. -/
def get [DecidableEq α] : Dict α β → α → Option β
  | [], _ => none
  | (k0, v0) :: rest, k => if k0 = k then some v0 else get rest k

/-- Python d[k] = v: replace the binding in place if k is present, else append. -/
def insert [DecidableEq α] : Dict α β → α → β → Dict α β
  | [], k, v => [(k, v)]
  | (k0, v0) :: rest, k, v =>
    if k0 = k then (k0, v) :: rest else (k0, v0) :: insert rest k v

/-- Python d.pop(k, None): drop the binding of k if present. -/
def pop [DecidableEq α] : Dict α β → α → Dict α β
  | [], _ => []
  | (k0, v0) :: rest, k =>
    if k0 = k then rest else (k0, v0) :: pop rest k

/-- Python k in d. -/
def hasKey [DecidableEq α] (d : Dict α β) (k : α) : Bool :=
  (d.get k).isSome

end Dict

/-- One palette entry of an asset (models.py, class Palette).  The float
percentage field is abstracted to an integer; no operation of the engine
ever reads it. -/
structure Palette where
  color : List Nat
  ratio : Int
deriving DecidableEq

/-- Asset metadata record (models.py, class File): one
images/id/metadata.json document. -/
structure File where
  id : String
  name : String
  size : Nat
  btime : Nat
  mtime : Nat
  ext : String
  tags : List String
  folders : List String
  isDeleted : Bool
  url : String
  annotation : String
  modificationTime : Nat
  height : Nat
  width : Nat
  lastModified : Nat
  palettes : List Palette
deriving DecidableEq

/-- Folder record (models.py, class Folder): id, name, description,
modificationTime, tags, children (recursive list, JSON field children),
conditions. -/
inductive Folder where
  | mk (id : String) (name : String) (description : String)
       (modificationTime : Nat) (tags : List String)
       (children : List Folder) (conditions : List String)

def Folder.id : Folder → String
  | .mk i _ _ _ _ _ _ => i

def Folder.name : Folder → String
  | .mk _ n _ _ _ _ _ => n

def Folder.description : Folder → String
  | .mk _ _ d _ _ _ _ => d

def Folder.modificationTime : Folder → Nat
  | .mk _ _ _ m _ _ _ => m

def Folder.tags : Folder → List String
  | .mk _ _ _ _ t _ _ => t

def Folder.children : Folder → List Folder
  | .mk _ _ _ _ _ c _ => c

mutual

def folderDecEq : (a b : Folder) → Decidable (a = b)
  | .mk i1 n1 d1 m1 t1 c1 q1, .mk i2 n2 d2 m2 t2 c2 q2 =>
    if h1 : i1 = i2 then
      if h2 : n1 = n2 then
        if h3 : d1 = d2 then
          if h4 : m1 = m2 then
            if h5 : t1 = t2 then
              match folderListDecEq c1 c2 with
              | isTrue h6 =>
                if h7 : q1 = q2 then
                  isTrue (by rw [h1, h2, h3, h4, h5, h6, h7])
                else isFalse (by intro he; injection he; contradiction)
              | isFalse h6 => isFalse (by intro he; injection he; contradiction)
            else isFalse (by intro he; injection he; contradiction)
          else isFalse (by intro he; injection he; contradiction)
        else isFalse (by intro he; injection he; contradiction)
      else isFalse (by intro he; injection he; contradiction)
    else isFalse (by intro he; injection he; contradiction)

def folderListDecEq : (a b : List Folder) → Decidable (a = b)
  | [], [] => isTrue rfl
  | [], _ :: _ => isFalse (by intro h; cases h)
  | _ :: _, [] => isFalse (by intro h; cases h)
  | a :: as, b :: bs =>
    match folderDecEq a b with
    | isTrue h1 =>
      match folderListDecEq as bs with
      | isTrue h2 => isTrue (by rw [h1, h2])
      | isFalse h2 => isFalse (by intro he; injection he; contradiction)
    | isFalse h1 => isFalse (by intro he; injection he; contradiction)

end

instance : DecidableEq Folder := folderDecEq

/-- Library root metadata (models.py, class Meta): the metadata.json
document of the library bundle. -/
structure Meta where
  folders : List Folder
  smartFolders : List Folder
  quickAccess : List String
  tagsGroups : List String
  modificationTime : Nat
  applicationVersion : String
deriving DecidableEq

/-- The persisted library store as read and written by EagleLibrarySource.
none for metadata or mtime means the file is missing or unreadable; an
images binding to none means that record cannot be read (eats the
exception path of File reads). -/
structure Store where
  metadata : Option Meta
  images : Dict String (Option File)
  mtime : Option (Dict String Nat)
deriving DecidableEq

/-- Cache state of source.py class EagleLibrarySource.  FUSE paths are
modelled as their component lists (Path("/a/b") is the list of "a", "b";
the root Path("/") is the empty list), matching pathlib parent and name. -/
structure SourceState where
  id_map : Dict String File
  update_time : Nat
  dir_map : Dict String Folder
  dir_file_map : Dict String (Dict String File)
  path_dir_map : Dict (List String) Folder
  void_folder : Folder
  meta : Meta
  root : Folder
deriving DecidableEq

/-- Result of a cache pass: ok mirrors normal return, raised mirrors an
uncaught Python exception escaping the method; both carry the state the
in-place mutations have left behind at that point. -/
inductive URes where
  | ok (s : SourceState)
  | raised (s : SourceState)
deriving DecidableEq

/-- The source.py pattern dir_file_map.get(k, curly-default).pop(nm, None):
a no-op when k is absent, otherwise removes nm from the inner dict. -/
def popInner (m : Dict String (Dict String File)) (k nm : String) :
    Dict String (Dict String File) :=
  match m.get k with
  | some inner => m.insert k (inner.pop nm)
  | none => m

/-- The source.py pattern dir_file_map.setdefault(k, empty)[nm] = f. -/
def setdefaultInsert (m : Dict String (Dict String File)) (k nm : String)
    (f : File) : Dict String (Dict String File) :=
  match m.get k with
  | some inner => m.insert k (inner.insert nm f)
  | none => m.insert k [(nm, f)]

/-- source.py EagleLibrarySource.add_file_to_cache (lines 300-313); the
inline tail of _init_cache (lines 112-117) executes the same statements. -/
def addFileToCache (s : SourceState) (f : File) : SourceState :=
  let s := { s with id_map := s.id_map.insert f.id f }
  if f.folders ≠ [] then
    { s with dir_file_map :=
        f.folders.foldl (fun m fid => setdefaultInsert m fid f.name f) s.dir_file_map }
  else
    { s with dir_file_map := setdefaultInsert s.dir_file_map s.void_folder.id f.name f }

/-- source.py EagleLibrarySource.remove_file_from_cache (lines 315-334). -/
def removeFileFromCache (s : SourceState) (fid : String) : SourceState :=
  match s.id_map.get fid with
  | none => s
  | some f =>
    let dfm :=
      if f.folders ≠ [] then
        f.folders.foldl (fun m fid2 => popInner m fid2 f.name) s.dir_file_map
      else
        popInner s.dir_file_map s.void_folder.id f.name
    { s with dir_file_map := dfm, id_map := s.id_map.pop fid }

/-- source.py EagleLibrarySource._load_file (lines 218-229): reads
images/id/metadata.json; none models the read raising. -/
def loadFile (store : Store) (fid : String) : Option File :=
  (store.images.get fid).bind fun x => x

/-- Fresh unclassified pseudo-folder, Folder(id="null", name="未分类"). -/
def voidFolderConst : Folder := .mk "null" "未分类" "" 0 [] [] []

mutual

/-- Inner _loop_folders of _init_cache (source.py lines 92-106): walks the
folder tree, storing a shallow copy Folder(folder.id, folder.name) of each
folder (children and the other fields are not copied) in dir_map and
path_dir_map. -/
def loopFoldersList : List Folder → List String → SourceState → SourceState
  | [], _, s => s
  | f :: rest, path, s => loopFoldersList rest path (loopFolderOne f path s)

/-- Body of the _loop_folders iteration for one folder: insert the shallow
copy, then descend when the original has children. -/
def loopFolderOne : Folder → List String → SourceState → SourceState
  | Folder.mk fid fname _ _ _ fch _, path, s =>
    let sub := Folder.mk fid fname "" 0 [] [] []
    let s := { s with dir_map := s.dir_map.insert fid sub,
                      path_dir_map := s.path_dir_map.insert (path ++ [fname]) sub }
    if fch ≠ [] then loopFoldersList fch (path ++ [fname]) s else s

end

/-- Image-directory loop of _init_cache (source.py lines 108-118): loads
each record, skips soft-deleted ones, fills id_map and dir_file_map; a
record read failure raises out of the pass. -/
def loadImages : List (String × Option File) → SourceState → Nat → URes
  | [], s, t => .ok { s with update_time := t }
  | (_, none) :: _, s, _ => .raised s
  | (_, some f) :: rest, s, t =>
    let s := if f.isDeleted then s else addFileToCache s f
    loadImages rest s t

/-- source.py EagleLibrarySource._init_cache (lines 76-118).  Maps are
inserted into, never cleared, exactly as in the source.  Construction of
a fresh engine is initCache on an all-empty state. -/
def initCache (store : Store) (s : SourceState) (t : Nat) : URes :=
  let s := { s with void_folder := voidFolderConst }
  match store.metadata with
  | none => .raised s
  | some m =>
    let root := Folder.mk "" "" "" 0 [] (m.folders ++ [voidFolderConst]) []
    let s := { s with meta := m, root := root,
                      path_dir_map := s.path_dir_map.insert [] root }
    let s := loopFoldersList root.children [] s
    loadImages store.images s t

/-- Per-entry loop over mtime.json items of _update_cache (source.py
lines 148-171).  Accessing self.id_map with a missing key models the
KeyError the subscript raises; the dir_file_map pops use a None default
and cannot raise.  In the soft-delete branch the source pops the old
cached name from the children map of the FIRST folder of the reloaded
folder list only (or from the unclassified map when that list is empty). -/
def updateLoop (store : Store) : List (String × Nat) → SourceState → Nat → URes
  | [], s, t => .ok { s with update_time := t }
  | (k, v) :: rest, s, t =>
    if v > s.update_time then
      match loadFile store k with
      | none => .raised s
      | some nf =>
        if nf.isDeleted then
          match s.id_map.get k with
          | none => .raised s
          | some old =>
            let dfm :=
              match nf.folders with
              | f0 :: _ => popInner s.dir_file_map f0 old.name
              | [] => popInner s.dir_file_map s.void_folder.id old.name
            updateLoop store rest
              { s with dir_file_map := dfm, id_map := s.id_map.pop k } t
        else
          match s.id_map.get k with
          | none => .raised s
          | some old =>
            let s :=
              if nf.folders ≠ old.folders then
                let dfm :=
                  old.folders.foldl (fun m ofid => popInner m ofid old.name) s.dir_file_map
                let dfm :=
                  nf.folders.foldl (fun m nfid => setdefaultInsert m nfid nf.name nf) dfm
                { s with dir_file_map := dfm }
              else s
            updateLoop store rest { s with id_map := s.id_map.insert k nf } t
    else updateLoop store rest s t

/-- Tail of _update_cache (source.py lines 141-171): the mtime.json based
asset reconciliation; a missing mtime.json just advances the watermark. -/
def updateCacheFiles (store : Store) (s : SourceState) (t : Nat) : URes :=
  match store.mtime with
  | none => .ok { s with update_time := t }
  | some mt => updateLoop store mt s t

/-- source.py EagleLibrarySource._update_cache (lines 120-171): the
reconciliation pass.  A metadata.json newer than the cached copy causes a
full _init_cache; otherwise per-asset reconciliation runs. -/
def updateCache (store : Store) (s : SourceState) (t : Nat) : URes :=
  match store.metadata with
  | some m =>
    if m.modificationTime > s.meta.modificationTime then initCache store s t
    else updateCacheFiles store s t
  | none => updateCacheFiles store s t

/-- source.py EagleLibrarySource.get_file (lines 186-205): resolve the
parent path in path_dir_map, then the final component in that folder's
children map. -/
def getFile (s : SourceState) (path : List String) : Option File :=
  match s.path_dir_map.get path.dropLast with
  | none => none
  | some folder =>
    match s.dir_file_map.get folder.id with
    | some inner => inner.get (path.getLastD "")
    | none => none

/-- source.py EagleLibrarySource.get_folder (lines 207-216). -/
def getFolder (s : SourceState) (path : List String) : Option Folder :=
  s.path_dir_map.get path

/-- Index of the last dot of a character list (offset by the accumulator). -/
def lastDotIdx : List Char → Nat → Option Nat
  | [], _ => none
  | c :: rest, i =>
    match lastDotIdx rest (i + 1) with
    | some j => some j
    | none => if c = '.' then some i else none

/-- pathlib suffix of a final path component: the substring from the last
dot on, provided that dot is neither the first nor the last character. -/
def nameSuffix (nm : String) : String :=
  match lastDotIdx nm.toList 0 with
  | some i =>
    if 0 < i ∧ i < nm.toList.length - 1 then (nm.toList.drop i).asString else ""
  | none => ""

/-- pathlib stem of a final path component: the part before the suffix. -/
def nameStem (nm : String) : String :=
  match lastDotIdx nm.toList 0 with
  | some i =>
    if 0 < i ∧ i < nm.toList.length - 1 then (nm.toList.take i).asString else nm
  | none => nm

/-- Python str.lstrip with dots: drop all leading dot characters. -/
def lstripDots (s : String) : String :=
  (s.toList.dropWhile (fun c => c = '.')).asString

/-- source.py EagleLibrarySource.create_file (lines 406-467).  The random
_generate_id result is passed in as newId; the content-file touch and the
thumbnail generation for image extensions touch neither the JSON store
nor the cache maps and are omitted from the state. -/
def createFile (store : Store) (s : SourceState) (path : List String)
    (newId : String) (t : Nat) : Store × SourceState × File :=
  let nm := path.getLastD ""
  let fileName := nameStem nm
  let fileExt := let e := lstripDots (nameSuffix nm); if e = "" then "bin" else e
  let parentFolder := s.path_dir_map.get path.dropLast
  let folderIds :=
    match parentFolder with
    | some pf => if pf.id ≠ "null" then [pf.id] else []
    | none => []
  let newFile : File :=
    { id := newId, name := fileName, size := 0, btime := t, mtime := t, ext := fileExt,
      tags := [], folders := folderIds, isDeleted := false, url := "",
      annotation := "", modificationTime := t, height := 0, width := 0,
      lastModified := t, palettes := [] }
  let store := { store with images := store.images.insert newId (some newFile) }
  let store := { store with mtime := some ((store.mtime.getD []).insert newId t) }
  let s := addFileToCache s newFile
  (store, s, newFile)

/-- Python mutates the one shared File object in place, so every cache
binding holding that object observes the update; modelled by replacing
each binding whose value equals the old record. -/
def replaceFileEverywhere (s : SourceState) (old new : File) : SourceState :=
  { s with
    id_map := s.id_map.map (fun kv => if kv.2 = old then (kv.1, new) else kv),
    dir_file_map := s.dir_file_map.map
      (fun kv => (kv.1, kv.2.map (fun kv2 => if kv2.2 = old then (kv2.1, new) else kv2))) }

/-- source.py EagleLibrarySource.delete_file (lines 509-531): resolve the
path; on a miss return silently; otherwise flag the record soft-deleted,
persist it, bump the change index and drop it from the cache maps. -/
def deleteFile (store : Store) (s : SourceState) (path : List String) (t : Nat) :
    Store × SourceState :=
  match getFile s path with
  | none => (store, s)
  | some file =>
    let file2 :=
      { file with isDeleted := true, mtime := t, modificationTime := t, lastModified := t }
    let s := replaceFileEverywhere s file file2
    let store := { store with images := store.images.insert file2.id (some file2) }
    let store := { store with mtime := some ((store.mtime.getD []).insert file2.id t) }
    let s := removeFileFromCache s file2.id
    (store, s)

mutual

/-- source.py EagleLibrarySource._remove_child_recursive (lines 716-732)
applied to one folder: scan its children for the id, else recurse. -/
def removeChildIn (f : Folder) (fid : String) : Folder × Bool :=
  match f with
  | .mk i n d m tg ch cond =>
    let r := removeChildList ch fid
    (.mk i n d m tg r.1 cond, r.2)

/-- Child-list scan of _remove_child_recursive: pop the first child with
the id, else recurse into each child in turn, stopping at the first hit. -/
def removeChildList : List Folder → String → List Folder × Bool
  | [], _ => ([], false)
  | c :: rest, fid =>
    if c.id = fid then (rest, true)
    else
      match removeChildIn c fid with
      | (c2, true) => (c2 :: rest, true)
      | (_, false) =>
        let r := removeChildList rest fid
        (c :: r.1, r.2)

end

/-- source.py EagleLibrarySource._remove_child_from_parent (lines 706-714):
try each top-level folder in turn, stopping at the first removal.  Note a
top-level folder is only searched inside, never removed itself. -/
def removeChildTop : List Folder → String → List Folder
  | [], _ => []
  | f :: rest, fid =>
    match removeChildIn f fid with
    | (f2, true) => f2 :: rest
    | (_, false) => f :: removeChildTop rest fid

def removeChildFromParent (m : Meta) (fid : String) : Meta :=
  { m with folders := removeChildTop m.folders fid }

mutual

/-- source.py EagleLibrarySource._update_folder_name_recursive
(lines 775-793): rename the folder itself if the id matches, else recurse
into the children, stopping at the first hit. -/
def updateFolderNameIn (f : Folder) (fid newName : String) (t : Nat) : Folder × Bool :=
  match f with
  | .mk i n d m tg ch cond =>
    if i = fid then (.mk i newName d t tg ch cond, true)
    else
      let r := updateFolderNameList ch fid newName t
      (.mk i n d m tg r.1 cond, r.2)

def updateFolderNameList : List Folder → String → String → Nat → List Folder × Bool
  | [], _, _, _ => ([], false)
  | c :: rest, fid, newName, t =>
    match updateFolderNameIn c fid newName t with
    | (c2, true) => (c2 :: rest, true)
    | (_, false) =>
      let r := updateFolderNameList rest fid newName t
      (c :: r.1, r.2)

end

/-- source.py EagleLibrarySource._update_folder_name (lines 764-773). -/
def updateFolderName (m : Meta) (fid newName : String) (t : Nat) : Meta :=
  { m with folders := (updateFolderNameList m.folders fid newName t).1 }

/-- Stable insertion keeping the original order of equal names, as Python
sorted(key=name) does. -/
def insertByName (f : Folder) : List Folder → List Folder
  | [] => [f]
  | g :: rest => if f.name < g.name then f :: g :: rest else g :: insertByName f rest

def sortFoldersByName (l : List Folder) : List Folder :=
  l.foldl (fun acc f => insertByName f acc) []

/-- source.py EagleLibrarySource._save_library_metadata (lines 273-281):
bump the root modification time, sort the top-level folders by name and
write metadata.json. -/
def saveLibraryMetadata (store : Store) (m : Meta) (t : Nat) : Store × Meta :=
  let m := { m with modificationTime := t, folders := sortFoldersByName m.folders }
  ({ store with metadata := some m }, m)

/-- source.py EagleLibrarySource.remove_folder_from_cache (lines 348-363):
drop every path binding whose folder has the id, then the dir_map entry. -/
def removeFolderFromCache (s : SourceState) (fid : String) : SourceState :=
  if Dict.hasKey s.dir_map fid then
    { s with
      path_dir_map := s.path_dir_map.filter (fun kv => kv.2.id != fid),
      dir_map := s.dir_map.pop fid }
  else s

/-- source.py EagleLibrarySource.delete_folder (lines 678-704).  The
emptiness checks test the cached folder object's children list and the
dir_file_map entry; the Python dict truthiness test is nonemptiness. -/
def deleteFolder (store : Store) (s : SourceState) (path : List String) (t : Nat) :
    Except String (Store × SourceState) :=
  match getFolder s path with
  | none => .error "Folder not found"
  | some folder =>
    if folder.children ≠ [] then .error "Directory not empty"
    else
      let filesNonempty : Bool :=
        match s.dir_file_map.get folder.id with
        | some inner => !inner.isEmpty
        | none => false
      if filesNonempty then .error "Directory not empty"
      else
        let m := removeChildFromParent s.meta folder.id
        let sm := saveLibraryMetadata store m t
        let s := { s with meta := sm.2 }
        let s := removeFolderFromCache s folder.id
        .ok (sm.1, s)

/-- In-place rename of the cached folder object (folder.name and
folder.modificationTime assignments of rename_folder). -/
def folderRename (f : Folder) (newName : String) (t : Nat) : Folder :=
  match f with
  | .mk i _ d _ tg ch cond => .mk i newName d t tg ch cond

/-- source.py EagleLibrarySource.rename_folder (lines 734-762): rename in
the persisted tree, save, then re-key the path map.  The cached folder
object is the same Python object as the dir_map binding for its id, so the
in-place rename shows up there as well; modelled by rewriting the dir_map
binding when it holds the identical record. -/
def renameFolder (store : Store) (s : SourceState) (oldPath newPath : List String)
    (t : Nat) : Store × SourceState :=
  match getFolder s oldPath with
  | none => (store, s)
  | some folder =>
    let newName := newPath.getLastD ""
    let m := updateFolderName s.meta folder.id newName t
    let sm := saveLibraryMetadata store m t
    let s := { s with meta := sm.2 }
    if Dict.hasKey s.path_dir_map oldPath then
      let folder2 := folderRename folder newName t
      let dm :=
        match s.dir_map.get folder.id with
        | some g => if g = folder then s.dir_map.insert folder.id folder2 else s.dir_map
        | none => s.dir_map
      (sm.1,
       { s with dir_map := dm,
                path_dir_map := (s.path_dir_map.pop oldPath).insert newPath folder2 })
    else (sm.1, s)

/-- Attribute reply fields that lookup sets on its negative-cache path
(pyfuse3 EntryAttributes; the remaining fields keep their defaults). -/
structure EntryAttributes where
  st_ino : Nat
  generation : Nat
  entry_timeout : Nat
  attr_timeout : Nat
deriving DecidableEq

/-- The negative-cache reply lookup builds in fuse_operations.py lines
105-111 and 115-121: st_ino 0 with five-minute timeouts. -/
def negAttr : EntryAttributes :=
  { st_ino := 0, generation := 0, entry_timeout := 300, attr_timeout := 300 }

/-- Adapter-visible state of the inode-indexed engine behind
fuse_operations.py: the per-inode children map of the source plus the
adapter's open-handle table. -/
structure FuseState where
  children_map : Dict Nat (Dict String Nat)
  open_files : Dict Nat (Nat × Nat)
  next_fh : Nat
deriving DecidableEq

/-- What lookup replies with: either it delegates to getattr of an inode,
or it returns a constructed negative attribute record. -/
inductive LookupResult where
  | getattrCall (inode : Nat)
  | reply (a : EntryAttributes)
deriving DecidableEq

/-- fuse_operations.py EagleLibrary.lookup (lines 71-123), after the
update_cache trigger and the name decoding: dot entries delegate to
getattr; a parent without a children-map entry yields the negative reply;
a present children map without the name yields the negative reply; a hit
delegates to getattr of the child inode.  parentOf stands for
_get_parent_inode, whose inode-indexed source backing is not part of the
repository sources. -/
def lookup (s : FuseState) (parentOf : Nat → Nat) (parentInode : Nat)
    (name : String) : LookupResult :=
  if name = "." then .getattrCall parentInode
  else if name = ".." then .getattrCall (parentOf parentInode)
  else
    match s.children_map.get parentInode with
    | none => .reply negAttr
    | some children =>
      match Dict.get children name with
      | none => .reply negAttr
      | some childInode => .getattrCall childInode

inductive FuseErrno where
  | EEXIST
  | EIOError
deriving DecidableEq

/-- Outcome of the adapter create call: a raised FUSEError or the new
adapter state with the created inode and file handle. -/
inductive CreateResult where
  | raiseErr (e : FuseErrno)
  | created (s : FuseState) (inode : Nat) (fh : Nat)
deriving DecidableEq

/-- Python name.rsplit at the last dot; without a dot the whole name is
the base and the extension is empty, matching the two branches of
fuse_operations.py lines 428-431. -/
def rsplitDot (nm : String) : String × String :=
  match lastDotIdx nm.toList 0 with
  | some i => ((nm.toList.take i).asString, (nm.toList.drop (i + 1)).asString)
  | none => (nm, "")

/-- fuse_operations.py EagleLibrary.create (lines 394-450), after the
update_cache trigger and the name decoding.  The already-exists check on
the parent children map precedes everything else.  The backing new_file
method of the inode-indexed source is not part of the repository sources
and is passed in as the transformer newFileFx (none models a False
success flag). -/
def create (s : FuseState) (parentInode : Nat) (name : String)
    (newFileFx : FuseState → Nat → String → String → Option FuseState) :
    CreateResult :=
  let children := (s.children_map.get parentInode).getD []
  if Dict.hasKey children name then .raiseErr .EEXIST
  else
    let be := rsplitDot name
    match newFileFx s parentInode be.1 be.2 with
    | none => .raiseErr .EIOError
    | some s2 =>
      match Dict.get ((s2.children_map.get parentInode).getD []) name with
      | none => .raiseErr .EIOError
      | some newInode =>
        let fh := s2.next_fh
        .created
          { s2 with next_fh := fh + 1,
                    open_files := s2.open_files.insert fh (newInode, 1) }
          newInode fh

/-- Effect kinds of one Mutation Engine call, listed in source order:
persist is a JSON store write (asset metadata.json, mtime.json, or the
library metadata.json); cacheMap is an insertion into or removal from the
four cache maps; content is a content-file operation; nodeField is an
in-place field update of a cached node object or of the in-memory meta
tree; preview is thumbnail generation. -/
inductive MutStep where
  | persist (what : String)
  | cacheMap (what : String)
  | content (what : String)
  | nodeField (what : String)
  | preview
deriving DecidableEq

/-- Effect order of create_file, source.py lines 406-467. -/
def createFileSteps : List MutStep :=
  [.content "create_image_dir", .persist "save_file_metadata",
   .persist "update_mtime", .cacheMap "add_file_to_cache",
   .content "touch_content_file", .preview]

/-- Effect order of write_file, source.py lines 469-507. -/
def writeFileSteps : List MutStep :=
  [.content "write_bytes", .nodeField "size_and_timestamps",
   .persist "save_file_metadata", .persist "update_mtime", .preview]

/-- Effect order of delete_file, source.py lines 509-531. -/
def deleteFileSteps : List MutStep :=
  [.nodeField "isDeleted_and_timestamps", .persist "save_file_metadata",
   .persist "update_mtime", .cacheMap "remove_file_from_cache"]

/-- Effect order of rename_file, source.py lines 533-582. -/
def renameFileSteps : List MutStep :=
  [.content "rename_content_file", .content "rename_thumbnail",
   .cacheMap "remove_file_from_cache", .nodeField "name_ext_folders_timestamps",
   .persist "save_file_metadata", .persist "update_mtime",
   .cacheMap "add_file_to_cache"]

/-- Effect order of update_file_time, source.py lines 584-603. -/
def updateFileTimeSteps : List MutStep :=
  [.nodeField "timestamps", .persist "save_file_metadata", .persist "update_mtime"]

/-- Effect order of truncate_file, source.py lines 605-630. -/
def truncateFileSteps : List MutStep :=
  [.content "truncate_bytes", .nodeField "size_and_timestamps",
   .persist "save_file_metadata", .persist "update_mtime"]

/-- Effect order of create_folder, source.py lines 634-676. -/
def createFolderSteps : List MutStep :=
  [.nodeField "append_to_parent_children", .persist "save_library_metadata",
   .cacheMap "add_folder_to_cache"]

/-- Effect order of delete_folder, source.py lines 678-704. -/
def deleteFolderSteps : List MutStep :=
  [.nodeField "remove_child_from_parent", .persist "save_library_metadata",
   .cacheMap "remove_folder_from_cache"]

/-- Effect order of rename_folder, source.py lines 734-762. -/
def renameFolderSteps : List MutStep :=
  [.nodeField "update_folder_name", .persist "save_library_metadata",
   .nodeField "name_and_mtime", .cacheMap "pop_old_path",
   .cacheMap "insert_new_path"]

/-- Helper scanning a step list: true while no persist step has occurred
after a cacheMap step. -/
def storeBeforeCacheMapAux : List MutStep → Bool → Bool
  | [], _ => true
  | .cacheMap _ :: rest, _ => storeBeforeCacheMapAux rest true
  | .persist _ :: rest, seen =>
    if seen then false else storeBeforeCacheMapAux rest seen
  | _ :: rest, seen => storeBeforeCacheMapAux rest seen

/-- The ordering discipline of the spec: every JSON store write of the
operation precedes every cache-map update. -/
def storeBeforeCacheMap (l : List MutStep) : Bool :=
  storeBeforeCacheMapAux l false

/-- State carried by either outcome of a pass. -/
def uresState : URes → SourceState
  | .ok s => s
  | .raised s => s

/-- Whether a pass returned normally. -/
def uresIsOk : URes → Bool
  | .ok _ => true
  | .raised _ => false

/-- Whether a folder mutation returned normally. -/
def exceptIsOk : Except String (Store × SourceState) → Bool
  | .ok _ => true
  | .error _ => false

/-- Meta value of a library with no folders, used as the placeholder before
the constructor has run _init_cache. -/
def emptyMeta : Meta :=
  { folders := [], smartFolders := [], quickAccess := [], tagsGroups := [],
    modificationTime := 0, applicationVersion := "" }

/-- State of a freshly constructed EagleLibrarySource before _init_cache
has populated anything (all maps empty, update_time zero). -/
def emptyState : SourceState :=
  { id_map := [], update_time := 0, dir_map := [], dir_file_map := [],
    path_dir_map := [], void_folder := voidFolderConst, meta := emptyMeta,
    root := Folder.mk "" "" "" 0 [] [] [] }

/-- Store state of a folder mutation that failed; only used as the default
of a total projection. -/
def emptyStore : Store := { metadata := none, images := [], mtime := none }

/-- Resulting source state of a folder mutation (default on failure). -/
def exceptState : Except String (Store × SourceState) → SourceState
  | .ok r => r.2
  | .error _ => emptyState

/-- Resulting store of a folder mutation (default on failure). -/
def exceptStore : Except String (Store × SourceState) → Store
  | .ok r => r.1
  | .error _ => emptyStore

/-- Scenario fixture: asset A1 filed under the two folders Design (F1) and
Extra (F2). -/
def c1old : File :=
  { id := "A1", name := "a", size := 1, btime := 0, mtime := 0, ext := "ext",
    tags := [], folders := ["F1", "F2"], isDeleted := false, url := "",
    annotation := "", modificationTime := 0, height := 0, width := 0,
    lastModified := 0, palettes := [] }

/-- The same record after an external soft delete. -/
def c1newf : File :=
  { c1old with isDeleted := true, mtime := 10, modificationTime := 10, lastModified := 10 }

def c1meta : Meta :=
  { folders := [Folder.mk "F1" "Design" "" 0 [] [] [],
                Folder.mk "F2" "Extra" "" 0 [] [] []],
    smartFolders := [], quickAccess := [], tagsGroups := [],
    modificationTime := 40, applicationVersion := "4" }

/-- Store as first loaded (A1 alive). -/
def c1store0 : Store :=
  { metadata := some c1meta, images := [("A1", some c1old)], mtime := none }

/-- Cache built by the constructor from that store. -/
def c1state : SourceState := uresState (initCache c1store0 emptyState 5)

/-- Store after the external application flipped isDeleted and bumped the
change index past the watermark. -/
def c1store : Store :=
  { c1store0 with images := [("A1", some c1newf)], mtime := some [("A1", 10)] }

/-- Scenario fixture for the empty-folder-list branch: asset A2 with no
owning folders, filed under the unclassified pseudo-folder. -/
def c1voldf : File :=
  { id := "A2", name := "u", size := 1, btime := 0, mtime := 0, ext := "ext",
    tags := [], folders := [], isDeleted := false, url := "",
    annotation := "", modificationTime := 0, height := 0, width := 0,
    lastModified := 0, palettes := [] }

/-- The unclassified asset after an external soft delete. -/
def c1vnewf : File :=
  { c1voldf with isDeleted := true, mtime := 10, modificationTime := 10, lastModified := 10 }

/-- Store as first loaded (A2 alive and unclassified). -/
def c1vstore0 : Store :=
  { metadata := some c1meta, images := [("A2", some c1voldf)], mtime := none }

/-- Cache built by the constructor from that store. -/
def c1vstate : SourceState := uresState (initCache c1vstore0 emptyState 5)

/-- Store after the external application flipped isDeleted on A2 and
bumped the change index past the watermark. -/
def c1vstore : Store :=
  { c1vstore0 with images := [("A2", some c1vnewf)], mtime := some [("A2", 10)] }

/-- Fixture library with one top-level folder Design (F1). -/
def c2meta : Meta :=
  { folders := [Folder.mk "F1" "Design" "" 0 [] [] []],
    smartFolders := [], quickAccess := [], tagsGroups := [],
    modificationTime := 50, applicationVersion := "4" }

def c2store : Store := { metadata := some c2meta, images := [], mtime := none }

def c2state : SourceState := uresState (initCache c2store emptyState 10)

/-- Fixture tree: top folder T containing A, A containing B. -/
def c4meta : Meta :=
  { folders := [Folder.mk "idT" "T" "" 5 []
                  [Folder.mk "idA" "A" "" 5 [] [Folder.mk "idB" "B" "" 5 [] [] []] []] []],
    smartFolders := [], quickAccess := [], tagsGroups := [],
    modificationTime := 50, applicationVersion := "4" }

def c4store : Store := { metadata := some c4meta, images := [], mtime := none }

def c4state : SourceState := uresState (initCache c4store emptyState 10)

/-- Fixture tree: top folder A containing B. -/
def c5meta : Meta :=
  { folders := [Folder.mk "idA" "A" "" 5 [] [Folder.mk "idB" "B" "" 5 [] [] []] []],
    smartFolders := [], quickAccess := [], tagsGroups := [],
    modificationTime := 50, applicationVersion := "4" }

def c5store : Store := { metadata := some c5meta, images := [], mtime := none }

def c5state : SourceState := uresState (initCache c5store emptyState 10)

/-- Fixture: two assets known to the change index, the record of k1 being
unreadable while k2 is fine and would be reloaded by a continuing pass. -/
def c6file2 : File :=
  { id := "k2", name := "b", size := 2, btime := 0, mtime := 8, ext := "png",
    tags := [], folders := ["F1"], isDeleted := false, url := "",
    annotation := "", modificationTime := 8, height := 0, width := 0,
    lastModified := 8, palettes := [] }

def c6old2 : File := { c6file2 with mtime := 1, modificationTime := 1, lastModified := 1 }

def c6old1 : File :=
  { c6file2 with id := "k1", name := "c", mtime := 1, modificationTime := 1, lastModified := 1 }

def c6state : SourceState :=
  { id_map := [("k1", c6old1), ("k2", c6old2)], update_time := 5,
    dir_map := [("F1", Folder.mk "F1" "Design" "" 0 [] [] [])],
    dir_file_map := [("F1", [("c", c6old1), ("b", c6old2)])],
    path_dir_map := [(["Design"], Folder.mk "F1" "Design" "" 0 [] [] [])],
    void_folder := voidFolderConst, meta := emptyMeta,
    root := Folder.mk "" "" "" 0 [] [] [] }

def c6store : Store :=
  { metadata := none, images := [("k2", some c6file2)],
    mtime := some [("k1", 10), ("k2", 10)] }

/-- Fixture for the idempotence scenario: one live asset, change index at
timestamp 3, watermark 5 after construction. -/
def c8store : Store :=
  { metadata := some c1meta, images := [("A1", some c1old)], mtime := some [("A1", 3)] }

def c8state : SourceState := uresState (initCache c8store emptyState 5)

/-- Adapter fixture: parent inode 2 with one child entry a.txt at inode 5. -/
def c7state : FuseState :=
  { children_map := [(2, [("a.txt", 5)])], open_files := [], next_fh := 1 }

/-- Adapter fixture: parent inode 2 present with no children; inode 100
absent from the children map. -/
def c9state : FuseState :=
  { children_map := [(2, [])], open_files := [], next_fh := 1 }

/-- Entries at or below the watermark are skipped unchanged by the
reconciliation loop. -/
theorem updateLoop_append_skip (store : Store) (pre l : List (String × Nat))
    (s : SourceState) (t : Nat) (h : ∀ e ∈ pre, e.2 ≤ s.update_time) :
    updateLoop store (pre ++ l) s t = updateLoop store l s t := by
  induction pre with
  | nil => rfl
  | cons e rest ih =>
    obtain ⟨k, v⟩ := e
    have hv : ¬ v > s.update_time := Nat.not_lt.mpr (h (k, v) (List.mem_cons_self _ _))
    simp only [List.cons_append, updateLoop, if_neg hv]
    exact ih (fun e he => h e (List.mem_cons_of_mem _ he))

/-- A change list entirely at or below the watermark leaves every cache
map unchanged; only the watermark is set to the clock value. -/
theorem updateLoop_skip_all (store : Store) (l : List (String × Nat))
    (s : SourceState) (t : Nat) (h : ∀ e ∈ l, e.2 ≤ s.update_time) :
    updateLoop store l s t = URes.ok { s with update_time := t } := by
  calc updateLoop store l s t = updateLoop store (l ++ []) s t := by rw [List.append_nil]
    _ = updateLoop store [] s t := updateLoop_append_skip store l [] s t h
    _ = URes.ok { s with update_time := t } := rfl

/-- add_file_to_cache never touches the cached library metadata. -/
theorem addFileToCache_meta (s : SourceState) (f : File) :
    (addFileToCache s f).meta = s.meta := by
  unfold addFileToCache
  split <;> rfl

/-- A completed image-directory load ends with the watermark at the clock
value and the cached library metadata untouched. -/
theorem loadImages_ok_inv :
    ∀ (l : List (String × Option File)) (s s2 : SourceState) (t : Nat),
      loadImages l s t = URes.ok s2 → s2.update_time = t ∧ s2.meta = s.meta := by
  intro l
  induction l with
  | nil =>
    intro s s2 t h
    simp only [loadImages] at h
    injection h with h
    subst h
    exact ⟨rfl, rfl⟩
  | cons e rest ih =>
    intro s s2 t h
    obtain ⟨k, vo⟩ := e
    cases vo with
    | none =>
      simp only [loadImages] at h
      exact URes.noConfusion h
    | some f =>
      simp only [loadImages] at h
      obtain ⟨h1, h2⟩ := ih _ s2 t h
      refine ⟨h1, h2.trans ?_⟩
      by_cases hd : f.isDeleted = true
      · rw [if_pos hd]
      · rw [if_neg hd]
        exact addFileToCache_meta s f

/-- A completed reconciliation loop ends with the watermark at the clock
value and the cached library metadata untouched. -/
theorem updateLoop_ok_inv (store : Store) :
    ∀ (l : List (String × Nat)) (s s2 : SourceState) (t : Nat),
      updateLoop store l s t = URes.ok s2 → s2.update_time = t ∧ s2.meta = s.meta := by
  intro l
  induction l with
  | nil =>
    intro s s2 t h
    simp only [updateLoop] at h
    injection h with h
    subst h
    exact ⟨rfl, rfl⟩
  | cons e rest ih =>
    intro s s2 t h
    obtain ⟨k, v⟩ := e
    simp only [updateLoop] at h
    by_cases hv : v > s.update_time
    · rw [if_pos hv] at h
      cases hlf : loadFile store k with
      | none =>
        simp only [hlf] at h
        exact URes.noConfusion h
      | some nf =>
        simp only [hlf] at h
        by_cases hdel : nf.isDeleted = true
        · rw [if_pos hdel] at h
          cases hold : Dict.get s.id_map k with
          | none =>
            simp only [hold] at h
            exact URes.noConfusion h
          | some old =>
            simp only [hold] at h
            obtain ⟨h1, h2⟩ := ih _ s2 t h
            exact ⟨h1, h2.trans rfl⟩
        · rw [if_neg hdel] at h
          cases hold : Dict.get s.id_map k with
          | none =>
            simp only [hold] at h
            exact URes.noConfusion h
          | some old =>
            simp only [hold] at h
            obtain ⟨h1, h2⟩ := ih _ s2 t h
            refine ⟨h1, h2.trans ?_⟩
            split <;> rfl
    · rw [if_neg hv] at h
      exact ih s s2 t h

/-- A completed per-asset reconciliation ends with the watermark at the
clock value and the cached library metadata untouched. -/
theorem updateCacheFiles_ok_inv (store : Store) (s s2 : SourceState) (t : Nat)
    (h : updateCacheFiles store s t = URes.ok s2) :
    s2.update_time = t ∧ s2.meta = s.meta := by
  unfold updateCacheFiles at h
  cases hmt : store.mtime with
  | none =>
    rw [hmt] at h
    injection h with h
    subst h
    exact ⟨rfl, rfl⟩
  | some mt =>
    rw [hmt] at h
    exact updateLoop_ok_inv store mt s s2 t h

mutual

/-- The folder-walk of _init_cache never touches the cached library
metadata. -/
theorem loopFoldersList_meta :
    ∀ (l : List Folder) (p : List String) (s : SourceState),
      (loopFoldersList l p s).meta = s.meta
  | [], _, _ => rfl
  | f :: rest, p, s => by
    simp only [loopFoldersList]
    exact (loopFoldersList_meta rest p (loopFolderOne f p s)).trans
      (loopFolderOne_meta f p s)

/-- One step of the folder-walk never touches the cached library
metadata. -/
theorem loopFolderOne_meta :
    ∀ (f : Folder) (p : List String) (s : SourceState),
      (loopFolderOne f p s).meta = s.meta
  | Folder.mk fid fname d m tg fch cond, p, s => by
    simp only [loopFolderOne]
    split
    · exact (loopFoldersList_meta fch (p ++ [fname]) _).trans rfl
    · rfl

end

/-- A completed _init_cache ends with the watermark at the clock value
and the cached metadata equal to the freshly decoded store metadata. -/
theorem initCache_ok_inv (store : Store) (s s2 : SourceState) (t : Nat)
    (h : initCache store s t = URes.ok s2) :
    s2.update_time = t ∧ store.metadata = some s2.meta := by
  unfold initCache at h
  cases hm : store.metadata with
  | none =>
    rw [hm] at h
    exact URes.noConfusion h
  | some m =>
    rw [hm] at h
    obtain ⟨h1, h2⟩ := loadImages_ok_inv _ _ _ _ h
    refine ⟨h1, ?_⟩
    rw [h2, loopFoldersList_meta]


/-- Claim C8: when a reconciliation pass completes and every change-index
timestamp sits at or below the new watermark (no intervening store
change), running the pass again mutates no cache map - identifier map,
folder map, children maps and path map are all returned unchanged, with
only the watermark moved to the new clock value. -/
theorem c8_reconcile_idempotent (store : Store) (s s1 : SourceState) (t1 t2 : Nat)
    (h1 : updateCache store s t1 = URes.ok s1)
    (hstale : ∀ mt, store.mtime = some mt → ∀ e ∈ mt, e.2 ≤ t1) :
    updateCache store s1 t2 = URes.ok { s1 with update_time := t2 } := by
  have hfacts : s1.update_time = t1 ∧
      (∀ m, store.metadata = some m → ¬ m.modificationTime > s1.meta.modificationTime) := by
    unfold updateCache at h1
    split at h1
    next m hm =>
      by_cases hgt : m.modificationTime > s.meta.modificationTime
      · rw [if_pos hgt] at h1
        obtain ⟨ht, hmeta⟩ := initCache_ok_inv store s s1 t1 h1
        refine ⟨ht, fun m2 hm2 => ?_⟩
        rw [hm] at hm2
        injection hm2 with hm2
        have hsm : s1.meta = m := by
          rw [hm] at hmeta
          injection hmeta with hh
          exact hh.symm
        rw [← hm2, hsm]
        exact lt_irrefl _
      · rw [if_neg hgt] at h1
        obtain ⟨ht, hmeta⟩ := updateCacheFiles_ok_inv store s s1 t1 h1
        refine ⟨ht, fun m2 hm2 => ?_⟩
        rw [hm] at hm2
        injection hm2 with hm2
        rw [← hm2, hmeta]
        exact hgt
    next hm =>
      obtain ⟨ht, _⟩ := updateCacheFiles_ok_inv store s s1 t1 h1
      exact ⟨ht, fun m hmm => by rw [hm] at hmm; exact Option.noConfusion hmm⟩
  obtain ⟨hwm, hguard⟩ := hfacts
  unfold updateCache
  split
  next m hm =>
    rw [if_neg (hguard m hm)]
    unfold updateCacheFiles
    split
    next hmt => rfl
    next mt hmt =>
      exact updateLoop_skip_all store mt s1 t2
        (fun e he => by rw [hwm]; exact hstale mt hmt e he)
  next hm =>
    unfold updateCacheFiles
    split
    next hmt => rfl
    next mt hmt =>
      exact updateLoop_skip_all store mt s1 t2
        (fun e he => by rw [hwm]; exact hstale mt hmt e he)

/-- Claim C1 (amended): reconciling a soft-deleted asset pops the old
cached name from the children map of the FIRST folder of the reloaded
folder list only - the unclassified map when that list is empty, which is
what the headD default selects - and removes the identifier-map entry;
the children maps of all other folders are returned unchanged. -/
theorem c1_softdelete_purge (store : Store) (s : SourceState) (t : Nat) (k : String)
    (v : Nat) (pre post : List (String × Nat)) (nf old : File)
    (hm : ∀ m, store.metadata = some m → ¬ m.modificationTime > s.meta.modificationTime)
    (hmt : store.mtime = some (pre ++ (k, v) :: post))
    (hpre : ∀ e ∈ pre, e.2 ≤ s.update_time)
    (hpost : ∀ e ∈ post, e.2 ≤ s.update_time)
    (hv : v > s.update_time)
    (hload : loadFile store k = some nf)
    (hdel : nf.isDeleted = true)
    (hold : Dict.get s.id_map k = some old) :
    updateCache store s t
      = URes.ok { s with id_map := s.id_map.pop k,
                         dir_file_map := popInner s.dir_file_map
                           (nf.folders.headD s.void_folder.id) old.name,
                         update_time := t } := by
  have hcore : updateCacheFiles store s t
      = URes.ok { s with id_map := s.id_map.pop k,
                         dir_file_map := popInner s.dir_file_map
                           (nf.folders.headD s.void_folder.id) old.name,
                         update_time := t } := by
    unfold updateCacheFiles
    split
    next hmteq => rw [hmt] at hmteq; exact Option.noConfusion hmteq
    next mt hmteq =>
      rw [hmt] at hmteq
      injection hmteq with hmteq
      subst hmteq
      rw [updateLoop_append_skip store pre ((k, v) :: post) s t hpre]
      simp only [updateLoop, if_pos hv, hload, if_pos hdel, hold]
      cases hfold : nf.folders with
      | nil => exact updateLoop_skip_all store post _ t hpost
      | cons f0 fs => exact updateLoop_skip_all store post _ t hpost
  unfold updateCache
  split
  next m hmm => rw [if_neg (hm m hmm)]; exact hcore
  next hmm => exact hcore
/-- Claim C8 witness: a concrete double run on the fixture library,
discharging both hypotheses of the idempotence theorem. -/
theorem c8_witness :
    updateCache c8store c8state 10 = URes.ok { c8state with update_time := 10 } ∧
    updateCache c8store { c8state with update_time := 10 } 20
      = URes.ok { c8state with update_time := 20 } := by
  constructor
  · decide
  · exact c8_reconcile_idempotent c8store c8state { c8state with update_time := 10 } 10 20
      (by decide)
      (by
        intro mt hmt e he
        have hmt2 : mt = [("A1", 3)] := by
          have hr : c8store.mtime = some [("A1", 3)] := rfl
          rw [hr] at hmt
          injection hmt with hh
          exact hh.symm
        subst hmt2
        simp only [List.mem_singleton] at he
        subst he
        decide)

/-- Claim C1 counterexample: asset A1 is filed under both Design and
Extra; after its external soft delete is reconciled the pass completes
and A1 has left the identifier map and the Design children map, yet it
still resolves under Extra - it is not purged from the children map of
every folder it was previously filed under. -/
theorem c1_counterexample :
    uresIsOk (updateCache c1store c1state 20) = true ∧
    Dict.get (uresState (updateCache c1store c1state 20)).id_map "A1" = none ∧
    getFile (uresState (updateCache c1store c1state 20)) ["Design", "a"] = none ∧
    getFile (uresState (updateCache c1store c1state 20)) ["Extra", "a"] = some c1old := by
  decide

/-- Claim C1 witness: the amended soft-delete behaviour instantiated on
both branches - asset A1 with folder list F1, F2 (pop under the first
folder F1) and unclassified asset A2 with an empty folder list (pop under
the unclassified id "null"). -/
theorem c1_witness :
    (10 > c1state.update_time ∧ c1newf.isDeleted = true ∧
      Dict.get c1state.id_map "A1" = some c1old ∧ c1newf.folders = ["F1", "F2"] ∧
      10 > c1vstate.update_time ∧ c1vnewf.isDeleted = true ∧
      Dict.get c1vstate.id_map "A2" = some c1voldf ∧ c1vnewf.folders = []) ∧
    updateCache c1store c1state 20
      = URes.ok { c1state with
                  id_map := c1state.id_map.pop "A1",
                  dir_file_map := popInner c1state.dir_file_map "F1" c1old.name,
                  update_time := 20 } ∧
    updateCache c1vstore c1vstate 20
      = URes.ok { c1vstate with
                  id_map := c1vstate.id_map.pop "A2",
                  dir_file_map := popInner c1vstate.dir_file_map "null" c1voldf.name,
                  update_time := 20 } := by
  refine ⟨⟨by decide, by decide, by decide, by decide,
           by decide, by decide, by decide, by decide⟩, ?_, ?_⟩
  · exact c1_softdelete_purge c1store c1state 20 "A1" 10 [] [] c1newf c1old
      (by
        intro m hmm
        have hr : c1store.metadata = some c1meta := rfl
        rw [hr] at hmm
        injection hmm with hh
        rw [← hh]
        decide)
      rfl
      (by intro e he; exact absurd he (List.not_mem_nil e))
      (by intro e he; exact absurd he (List.not_mem_nil e))
      (by decide) (by decide) (by decide) (by decide)
  · exact c1_softdelete_purge c1vstore c1vstate 20 "A2" 10 [] [] c1vnewf c1voldf
      (by
        intro m hmm
        have hr : c1vstore.metadata = some c1meta := rfl
        rw [hr] at hmm
        injection hmm with hh
        rw [← hh]
        decide)
      rfl
      (by intro e he; exact absurd he (List.not_mem_nil e))
      (by intro e he; exact absurd he (List.not_mem_nil e))
      (by decide) (by decide) (by decide) (by decide)

/-- Claim C6 counterexample: with the k1 record unreadable the pass
raises instead of skipping k1; the later entry k2 stays unprocessed (its
pending reload to c6file2 never lands) and the watermark stays put, so
the pass neither continues nor completes. -/
theorem c6_counterexample :
    uresIsOk (updateCache c6store c6state 20) = false ∧
    uresState (updateCache c6store c6state 20) = c6state ∧
    Dict.get c6state.id_map "k2" = some c6old2 ∧
    loadFile c6store "k2" = some c6file2 ∧ c6old2 ≠ c6file2 := by
  decide

/-- Claim C6 (amended): a per-asset metadata read failure propagates out
of the reconciliation pass as an exception: with the preceding entries at
or below the watermark the pass raises with the state untouched and the
watermark not advanced, so the asset is retried on a later pass - nothing
is logged-and-skipped. -/
theorem c6_read_failure_aborts (store : Store) (s : SourceState) (t : Nat) (k : String)
    (v : Nat) (pre post : List (String × Nat))
    (hm : ∀ m, store.metadata = some m → ¬ m.modificationTime > s.meta.modificationTime)
    (hmt : store.mtime = some (pre ++ (k, v) :: post))
    (hpre : ∀ e ∈ pre, e.2 ≤ s.update_time)
    (hv : v > s.update_time)
    (hload : loadFile store k = none) :
    updateCache store s t = URes.raised s := by
  have hcore : updateCacheFiles store s t = URes.raised s := by
    unfold updateCacheFiles
    split
    next hmteq => rw [hmt] at hmteq; exact Option.noConfusion hmteq
    next mt hmteq =>
      rw [hmt] at hmteq
      injection hmteq with hmteq
      subst hmteq
      rw [updateLoop_append_skip store pre ((k, v) :: post) s t hpre]
      simp only [updateLoop, if_pos hv, hload]
  unfold updateCache
  split
  next m hmm => rw [if_neg (hm m hmm)]; exact hcore
  next hmm => exact hcore

/-- Claim C6 witness: the aborting pass instantiated on the unreadable-k1
fixture. -/
theorem c6_witness :
    (10 > c6state.update_time ∧ loadFile c6store "k1" = none) ∧
    updateCache c6store c6state 20 = URes.raised c6state := by
  refine ⟨⟨by decide, by decide⟩, ?_⟩
  exact c6_read_failure_aborts c6store c6state 20 "k1" 10 [] [("k2", 10)]
    (by
      intro m hmm
      have hr : c6store.metadata = none := rfl
      rw [hr] at hmm
      exact Option.noConfusion hmm)
    rfl
    (by intro e he; exact absurd he (List.not_mem_nil e))
    (by decide) (by decide)

/-- Claim C10: delete_file on a path that does not resolve returns
silently with the store and every cache map unchanged - a no-op rather
than a not-found error. -/
theorem c10_delete_missing_noop (store : Store) (s : SourceState) (path : List String)
    (t : Nat) (h : getFile s path = none) :
    deleteFile store s path t = (store, s) := by
  unfold deleteFile
  rw [h]

/-- Claim C10 witness: deleting a missing path on the empty library. -/
theorem c10_witness :
    getFile emptyState ["x"] = none ∧
    deleteFile emptyStore emptyState ["x"] 7 = (emptyStore, emptyState) :=
  ⟨by decide, c10_delete_missing_noop emptyStore emptyState ["x"] 7 (by decide)⟩

/-- Claim C7: the adapter create raises EEXIST whenever name.ext is
already present in the parent children map, before any state is touched
and regardless of the backing new_file behaviour. -/
theorem c7_create_duplicate_eexist (s : FuseState) (parentInode : Nat) (name : String)
    (newFileFx : FuseState → Nat → String → String → Option FuseState)
    (h : Dict.hasKey ((s.children_map.get parentInode).getD []) name = true) :
    create s parentInode name newFileFx = CreateResult.raiseErr FuseErrno.EEXIST := by
  unfold create
  rw [if_pos h]

/-- Claim C7 witness: creating a.txt under a parent already holding it. -/
theorem c7_witness :
    Dict.hasKey ((c7state.children_map.get 2).getD []) "a.txt" = true ∧
    create c7state 2 "a.txt" (fun s2 _ _ _ => some s2)
      = CreateResult.raiseErr FuseErrno.EEXIST :=
  ⟨by decide, c7_create_duplicate_eexist c7state 2 "a.txt" _ (by decide)⟩

/-- Claim C9 counterexample: lookup of a missing name under a present
parent and lookup under an absent parent return the very same value, so
the two negative outcomes are not distinguishable. -/
theorem c9_counterexample :
    Dict.get c9state.children_map 100 = none ∧
    Dict.get c9state.children_map 2 = some [] ∧
    lookup c9state (fun _ => 1) 2 "x" = lookup c9state (fun _ => 1) 100 "x" := by
  decide

/-- Claim C9 (amended): in both negative cases - parent without a
children-map entry, or name absent under a present parent - lookup
returns the one shared negative-cache reply with st_ino zero and
five-minute timeouts. -/
theorem c9_negative_same_reply (s : FuseState) (parentOf : Nat → Nat) (p : Nat)
    (n : String) (hdot : n ≠ ".") (hdd : n ≠ "..")
    (h : Dict.get s.children_map p = none ∨
         ∃ c, Dict.get s.children_map p = some c ∧ Dict.get c n = none) :
    lookup s parentOf p n = LookupResult.reply negAttr := by
  unfold lookup
  rw [if_neg hdot, if_neg hdd]
  rcases h with h | ⟨c, hc, hn⟩
  · rw [h]
  · simp only [hc, hn]

/-- Claim C9 witness: the shared negative reply on the absent-parent
side. -/
theorem c9_witness :
    ("x" ≠ "." ∧ Dict.get c9state.children_map 100 = none) ∧
    lookup c9state (fun _ => 1) 100 "x" = LookupResult.reply negAttr :=
  ⟨⟨by decide, by decide⟩,
   c9_negative_same_reply c9state (fun _ => 1) 100 "x" (by decide) (by decide)
     (Or.inl (by decide))⟩

/-- Claim C3 counterexample: rename_file removes the asset from the cache
maps before its metadata and change-index store writes, violating the
store-write-before-cache-update discipline. -/
theorem c3_counterexample : storeBeforeCacheMap renameFileSteps = false := by decide

/-- Claim C3 (amended): every mutation operation except rename_file
performs all of its JSON store writes before any cache-map update;
rename_file alone removes the cache entries before its store writes. -/
theorem c3_order_except_rename :
    ([createFileSteps, writeFileSteps, deleteFileSteps, updateFileTimeSteps,
      truncateFileSteps, createFolderSteps, deleteFolderSteps,
      renameFolderSteps].all storeBeforeCacheMap) = true ∧
    storeBeforeCacheMap renameFileSteps = false := by
  decide

/-- Claim C2 (code bug): create_file inserts the new asset into the
parent children map keyed by the stem (File.name) while get_file resolves
by the full final component, so an immediate resolve of the same name.ext
returns none even though the node was created with size 0 and the
requested extension. -/
theorem c2_create_then_resolve_misses :
    getFile (createFile c2store c2state ["Design", "a.txt"] "NEWID00000001" 20).2.1
      ["Design", "a.txt"] = none ∧
    Dict.get ((Dict.get (createFile c2store c2state ["Design", "a.txt"]
        "NEWID00000001" 20).2.1.dir_file_map "F1").getD []) "a"
      = some (createFile c2store c2state ["Design", "a.txt"] "NEWID00000001" 20).2.2 ∧
    (createFile c2store c2state ["Design", "a.txt"] "NEWID00000001" 20).2.2.size = 0 ∧
    (createFile c2store c2state ["Design", "a.txt"] "NEWID00000001" 20).2.2.ext = "txt" ∧
    (createFile c2store c2state ["Design", "a.txt"] "NEWID00000001" 20).2.2.name = "a" := by
  decide

/-- Claim C4 (code bug): the cached copy of an init-loaded folder always
has an empty children list, so delete_folder on folder A - whose
sub-folder B the current cache records in dir_map and path_dir_map -
passes both emptiness checks and succeeds: A (and with it B) leaves the
persisted tree while B stays behind orphaned in the cache maps. -/
theorem c4_delete_nonempty_folder_goes_through :
    Dict.get c4state.path_dir_map ["T", "A", "B"]
      = some (Folder.mk "idB" "B" "" 0 [] [] []) ∧
    exceptIsOk (deleteFolder c4store c4state ["T", "A"] 20) = true ∧
    Dict.get (exceptState (deleteFolder c4store c4state ["T", "A"] 20)).dir_map "idA"
      = none ∧
    Dict.get (exceptState (deleteFolder c4store c4state ["T", "A"] 20)).dir_map "idB"
      = some (Folder.mk "idB" "B" "" 0 [] [] []) ∧
    Dict.get (exceptState (deleteFolder c4store c4state ["T", "A"] 20)).path_dir_map
      ["T", "A", "B"] = some (Folder.mk "idB" "B" "" 0 [] [] []) ∧
    (exceptStore (deleteFolder c4store c4state ["T", "A"] 20)).metadata
      = some (Meta.mk [Folder.mk "idT" "T" "" 5 [] [] []] [] [] [] 20 "4") := by
  decide

/-- Claim C5 counterexample: renaming folder A into its own descendant
path A/B/C raises no invalid-argument error and mutates the cache path
map, re-keying A to the descendant path. -/
theorem c5_counterexample :
    Dict.get c5state.path_dir_map ["A", "B"]
      = some (Folder.mk "idB" "B" "" 0 [] [] []) ∧
    Dict.get (renameFolder c5store c5state ["A"] ["A", "B", "C"] 20).2.path_dir_map
      ["A", "B", "C"] = some (Folder.mk "idA" "C" "" 20 [] [] []) ∧
    Dict.get (renameFolder c5store c5state ["A"] ["A", "B", "C"] 20).2.path_dir_map
      ["A"] = none := by
  decide

/-- Claim C5 (amended): rename_folder performs no descendant or cycle
check: whenever the old path resolves, the operation completes and
re-keys the path map from the old path to the new path, carrying the
renamed folder object - the destination is never validated. -/
theorem c5_rename_into_descendant_not_rejected (store : Store) (s : SourceState)
    (oldPath newPath : List String) (t : Nat) (f : Folder)
    (h : getFolder s oldPath = some f) :
    (renameFolder store s oldPath newPath t).2.path_dir_map
      = (s.path_dir_map.pop oldPath).insert newPath
          (folderRename f (newPath.getLastD "") t) := by
  have h2 : Dict.get s.path_dir_map oldPath = some f := h
  unfold renameFolder
  rw [h]
  have hk : Dict.hasKey s.path_dir_map oldPath = true := by
    unfold Dict.hasKey
    rw [h2]
    rfl
  simp only [Dict.hasKey] at hk ⊢
  rw [h2]
  simp only [Option.isSome_some, if_true]

/-- Claim C5 witness: re-keying on the concrete A-into-A/B/C move. -/
theorem c5_witness :
    getFolder c5state ["A"] = some (Folder.mk "idA" "A" "" 0 [] [] []) ∧
    (renameFolder c5store c5state ["A"] ["A", "B", "C"] 20).2.path_dir_map
      = (c5state.path_dir_map.pop ["A"]).insert ["A", "B", "C"]
          (folderRename (Folder.mk "idA" "A" "" 0 [] [] []) "C" 20) :=
  ⟨by decide,
   c5_rename_into_descendant_not_rejected c5store c5state ["A"] ["A", "B", "C"] 20
     (Folder.mk "idA" "A" "" 0 [] [] []) (by decide)⟩


end Eagle
